import Mathlib

/-!
Verification of the aiqa python client core (span buffering/export pipeline and
span-lifecycle wrapper) against its natural-language specification.

The definitions below are a shallow embedding of `aiqa/aiqa_exporter.py` and
`aiqa/tracing.py`.  Python machine-level details are modelled as follows:
* the exporter's mutable fields become an explicit `ExporterState` record and
  every method becomes a state-passing function;
* the Python `set` of dedup keys becomes a `Finset`;
* the network send is an environment input (`Option FlushError`: `none` means
  the POST succeeded, `some e` means `_send_spans` raised `e`);
* Python exceptions become explicit error values (`Except` / result sums);
* the background flush thread becomes a fuel-indexed recursion producing the
  trace of actions it performs, with the cross-thread `shutdown_requested`
  flag and the per-cycle send outcomes supplied as oracles.
-/

/-! ## Exporter data model (`aiqa/aiqa_exporter.py`) -/

/-- A serialized span as produced by `AIQASpanExporter._serialize_span`.
Only the dedup key `(traceId, spanId)` is inspected by the buffer logic;
the remaining serialized fields (name, kind, times, status, ...) are
collapsed into an opaque `payload` string. -/
structure SerializedSpan where
  traceId : String
  spanId : String
  payload : String
deriving DecidableEq, Repr

/-- The dedup key of a buffered record: `(span["traceId"], span["spanId"])`. -/
abbrev SpanKey := String × String

/-- Model of `span_key = (serialized["traceId"], serialized["spanId"])`. -/
def spanKey (s : SerializedSpan) : SpanKey :=
  (s.traceId, s.spanId)

/-- The mutable state of an `AIQASpanExporter`:
`self.buffer`, `self.buffer_span_keys`, the configured server URL
(the `server_url` property; the empty string models "not set", matching the
falsiness test `if not self.server_url`), and `self.shutdown_requested`. -/
structure ExporterState where
  buffer : List SerializedSpan
  bufferSpanKeys : Finset SpanKey
  serverUrl : String
  shutdownRequested : Bool
deriving DecidableEq

/-- One iteration of the dedup loop inside `export()`: the accumulator holds
`serialized_spans`, `self.buffer_span_keys` and `duplicates_count`.
If the span's key is already tracked the record is skipped and counted,
otherwise it is appended to `serialized_spans` and its key is tracked. -/
def exportStep (acc : List SerializedSpan × Finset SpanKey × Nat)
    (span : SerializedSpan) : List SerializedSpan × Finset SpanKey × Nat :=
  let admitted := acc.1
  let keys := acc.2.1
  let dups := acc.2.2
  if spanKey span ∈ keys then (admitted, keys, dups + 1)
  else (admitted ++ [span], insert (spanKey span) keys, dups)

/-- Model of `AIQASpanExporter.export` (named `exportSpans`; `export` is a Lean
keyword): runs the dedup loop over the incoming batch and then extends
`self.buffer` with the admitted records.  Returns the new state together
with `duplicates_count`. -/
def exportSpans (st : ExporterState) (spans : List SerializedSpan) :
    ExporterState × Nat :=
  let r := spans.foldl exportStep ([], st.bufferSpanKeys, 0)
  ({ st with buffer := st.buffer ++ r.1, bufferSpanKeys := r.2.1 }, r.2.2)

/-- Model of `AIQASpanExporter._extract_and_remove_spans_from_buffer`: atomically
snapshots the buffer and empties it.  `buffer_span_keys` is deliberately
left untouched. -/
def extractAndRemoveSpansFromBuffer (st : ExporterState) :
    List SerializedSpan × ExporterState :=
  (st.buffer, { st with buffer := [] })

/-- Model of `AIQASpanExporter._remove_span_keys_from_tracking`: discards the key of
each given span from `buffer_span_keys`. -/
def removeSpanKeysFromTracking (st : ExporterState)
    (spans : List SerializedSpan) : ExporterState :=
  { st with
    bufferSpanKeys := spans.foldl (fun ks s => ks.erase (spanKey s)) st.bufferSpanKeys }

/-- Model of `AIQASpanExporter._prepend_spans_to_buffer`: `self.buffer[:0] = spans`
followed by a full rebuild of `buffer_span_keys` from the buffer contents. -/
def prependSpansToBuffer (st : ExporterState)
    (spans : List SerializedSpan) : ExporterState :=
  let buf := spans ++ st.buffer
  { st with buffer := buf, bufferSpanKeys := (buf.map spanKey).toFinset }

/-- Model of `AIQASpanExporter._time_to_tuple`: splits a nanosecond timestamp into a
`(seconds, nanoseconds)` pair via floor division and remainder. -/
def timeToTuple (nanoseconds : Nat) : Nat × Nat :=
  (nanoseconds / 1000000000, nanoseconds % 1000000000)

/-- The ways `_send_spans` can raise, as distinguished by `flush()`:
a Python `RuntimeError` (with `_is_interpreter_shutdown_error` deciding the
`shutdownRelated` flag) or any other `Exception`. -/
inductive FlushError where
  | runtime (shutdownRelated : Bool) (msg : String)
  | other (msg : String)
deriving DecidableEq, Repr

/-- The observable outcome of one `flush()` call: the exporter state after
the call, how many send attempts were made, the batch that was delivered
(`[]` when none was), the exception propagated to the caller (`none` when
`flush` returned normally), and the batch extracted from the buffer. -/
structure FlushResult where
  state : ExporterState
  sendAttempts : Nat
  sent : List SerializedSpan
  error : Option FlushError
  extracted : List SerializedSpan
deriving DecidableEq

/-- Model of `AIQASpanExporter.flush` (body under the flush lock; sequential model).
`sendResult` is the environment's answer to the single `_send_spans` call:
`none` for success, `some e` when it raises `e`.
* empty extraction: return;
* no server configured: release the extracted keys and return (drop);
* send succeeds: release the extracted keys;
* send raises a `RuntimeError`: restore the records and re-raise
  (both the interpreter-shutdown and the ordinary branch re-raise);
* send raises any other `Exception`: restore the records and re-raise only
  when `shutdown_requested` is set. -/
def flush (st : ExporterState) (sendResult : Option FlushError) : FlushResult :=
  let spansToFlush := (extractAndRemoveSpansFromBuffer st).1
  let st1 := (extractAndRemoveSpansFromBuffer st).2
  if spansToFlush.isEmpty then
    { state := st1, sendAttempts := 0, sent := [], error := none,
      extracted := spansToFlush }
  else if st1.serverUrl = "" then
    { state := removeSpanKeysFromTracking st1 spansToFlush, sendAttempts := 0,
      sent := [], error := none, extracted := spansToFlush }
  else
    match sendResult with
    | none =>
      { state := removeSpanKeysFromTracking st1 spansToFlush, sendAttempts := 1,
        sent := spansToFlush, error := none, extracted := spansToFlush }
    | some (FlushError.runtime sr msg) =>
      { state := prependSpansToBuffer st1 spansToFlush, sendAttempts := 1,
        sent := [], error := some (FlushError.runtime sr msg),
        extracted := spansToFlush }
    | some (FlushError.other msg) =>
      { state := prependSpansToBuffer st1 spansToFlush, sendAttempts := 1,
        sent := [],
        error := if st1.shutdownRequested then some (FlushError.other msg) else none,
        extracted := spansToFlush }

/-- An observable action of the auto-flush worker thread: a call to
`self.flush()` (with whether it raised) or a `time.sleep(interval)`. -/
inductive WorkerEvent where
  | flushCall (raised : Bool)
  | sleep
deriving DecidableEq, Repr

/-- The `flush_worker` loop of `AIQASpanExporter._start_auto_flush`, as a
fuel-indexed recursion over cycles.  `shutdownAt i` is the value of
`self.shutdown_requested` observed at the top of iteration `i` (it is set
by another thread), and `sendOutcomes i` is the outcome of the send inside
cycle `i`'s `flush()`.  Each non-shutdown iteration runs `flush()` and then
sleeps, on both the normal path and the caught-exception path, and then
continues; once the shutdown flag is observed the loop exits without any
further flush. -/
def flushWorker (sendOutcomes : Nat → Option FlushError)
    (shutdownAt : Nat → Bool) :
    Nat → Nat → ExporterState → List WorkerEvent × ExporterState
  | 0, _, st => ([], st)
  | fuel + 1, cycle, st =>
    if shutdownAt cycle then ([], st)
    else
      let res := flush st (sendOutcomes cycle)
      let next := flushWorker sendOutcomes shutdownAt fuel (cycle + 1) res.state
      (WorkerEvent.flushCall res.error.isSome :: WorkerEvent.sleep :: next.1,
        next.2)

/-! ## Tracing data model (`aiqa/tracing.py`) -/

/-- A Python value as handled by `_serialize_for_span`.  The modelled
universe covers `None`, `bool`, `int`, `str`, `list`/`tuple` and `dict`
(with string keys, as produced by the wrapper); `float` and `bytes` are not
populated by the claims and are omitted from the universe. -/
inductive PyVal where
  | pyNone
  | pyBool (b : Bool)
  | pyInt (n : Int)
  | pyStr (s : String)
  | pyList (xs : List PyVal)
  | pyDict (entries : List (String × PyVal))
deriving Repr

/-- The primitive test used by `_serialize_for_span`:
`value is None or isinstance(value, (str, int, float, bool, bytes))`. -/
def isPrimitive : PyVal → Bool
  | PyVal.pyNone => true
  | PyVal.pyBool _ => true
  | PyVal.pyInt _ => true
  | PyVal.pyStr _ => true
  | _ => false

/-- JSON string escaping for the characters the encoder must escape. -/
def jsonEscapeChar (c : Char) : String :=
  if c = '\\' then "\\\\"
  else if c = '"' then "\\\""
  else String.singleton c

/-- JSON escaping of a whole string. -/
def jsonEscape (s : String) : String :=
  String.join (s.toList.map jsonEscapeChar)

mutual

/-- Python's `json.dumps` with its default separators (`", "` and `": "`),
restricted to the modelled value universe (on which it never raises). -/
def jsonDumps : PyVal → String
  | PyVal.pyNone => "null"
  | PyVal.pyBool true => "true"
  | PyVal.pyBool false => "false"
  | PyVal.pyInt n => toString n
  | PyVal.pyStr s => "\"" ++ jsonEscape s ++ "\""
  | PyVal.pyList xs => "[" ++ jsonDumpsList xs ++ "]"
  | PyVal.pyDict es => "\x7b" ++ jsonDumpsEntries es ++ "\x7d"

/-- Comma-separated encoding of a JSON array body. -/
def jsonDumpsList : List PyVal → String
  | [] => ""
  | x :: rest =>
    jsonDumps x ++ (if rest.isEmpty then "" else ", ") ++ jsonDumpsList rest

/-- Comma-separated encoding of a JSON object body. -/
def jsonDumpsEntries : List (String × PyVal) → String
  | [] => ""
  | (k, v) :: rest =>
    "\"" ++ jsonEscape k ++ "\": " ++ jsonDumps v ++
      (if rest.isEmpty then "" else ", ") ++ jsonDumpsEntries rest

end

/-- Model of `_serialize_for_span`: primitives (including `None`) pass through;
a list whose elements are all primitive passes through as a list; any
other value is serialized to its JSON string. -/
def serializeForSpan : PyVal → PyVal
  | PyVal.pyNone => PyVal.pyNone
  | PyVal.pyBool b => PyVal.pyBool b
  | PyVal.pyInt n => PyVal.pyInt n
  | PyVal.pyStr s => PyVal.pyStr s
  | PyVal.pyList xs =>
    if xs.all isPrimitive then PyVal.pyList xs
    else PyVal.pyStr (jsonDumps (PyVal.pyList xs))
  | PyVal.pyDict es => PyVal.pyStr (jsonDumps (PyVal.pyDict es))

/-- Model of `_prepare_and_filter_output`: apply `filter_output` when given, then,
when `ignore_output` is truthy (present and non-empty) and the value is a
dict, delete the listed keys from a copy of it. -/
def prepareAndFilterOutput (result : PyVal)
    (filterOutput : Option (PyVal → PyVal))
    (ignoreOutput : Option (List String)) : PyVal :=
  let outputData :=
    match filterOutput with
    | some f => f result
    | none => result
  match ignoreOutput with
  | some keys =>
    if keys.isEmpty then outputData
    else
      match outputData with
      | PyVal.pyDict es => PyVal.pyDict (es.filter (fun kv => !(keys.contains kv.1)))
      | v => v
  | none => outputData

/-- Association lookup on the entry list of a modelled Python dict
(first binding wins, as in a Python dict built by successive inserts of
distinct keys). -/
def findEntry (k : String) : List (String × PyVal) → Option PyVal
  | [] => none
  | (k', v) :: rest => if k' = k then some v else findEntry k rest

/-- Key lookup on a modelled Python dict value (`none` on non-dicts and
missing keys). -/
def dictFind (k : String) : PyVal → Option PyVal
  | PyVal.pyDict es => findEntry k es
  | _ => none

/-- A Python exception object; `str(error)` is its `message`. -/
structure PyException where
  message : String
deriving DecidableEq, Repr

/-- The status of an OpenTelemetry span as set by the wrapper. -/
inductive SpanStatus where
  | unset
  | ok
  | error (msg : String)
deriving DecidableEq, Repr

/-- The observable state of one span: whether it is recording, the
attributes set on it, its status, the exceptions recorded on it as events,
and whether it has been ended. -/
structure SpanState where
  recording : Bool
  attrs : List (String × PyVal)
  status : SpanStatus
  exceptionEvents : List PyException
  ended : Bool

/-- A freshly started, recording span. -/
def freshSpan : SpanState :=
  { recording := true, attrs := [], status := SpanStatus.unset,
    exceptionEvents := [], ended := false }

/-- Model of `_handle_span_exception`: `span.record_exception(error)` followed by
`span.set_status(Status(StatusCode.ERROR, str(error)))`.  The caught value
is always an `Exception` instance, so the `isinstance` guard in the source
keeps it unchanged. -/
def handleSpanException (span : SpanState) (exc : PyException) : SpanState :=
  { span with exceptionEvents := span.exceptionEvents ++ [exc],
              status := SpanStatus.error exc.message }

/-- Model of `_execute_with_span_sync`: run the executor inside
`tracer.start_as_current_span`.  The executor's behaviour is the
environment input `executor : Except PyException PyVal` (normal return or
raised exception).  A non-recording span skips all attribute work; on
success the reduced output is attached and the status set to OK; on an
exception the exception is recorded, the status set to error, and the same
exception re-raised.  Leaving the `with` block ends the span in every
case. -/
def executeWithSpanSync (recording : Bool) (inputData : Option PyVal)
    (filterOutput : Option (PyVal → PyVal)) (ignoreOutput : Option (List String))
    (executor : Except PyException PyVal) :
    SpanState × Except PyException PyVal :=
  let span : SpanState := { freshSpan with recording := recording }
  if !recording then ({ span with ended := true }, executor)
  else
    let span :=
      match inputData with
      | some d => { span with attrs := span.attrs ++ [("input", serializeForSpan d)] }
      | none => span
    match executor with
    | Except.ok result =>
      let outputData := prepareAndFilterOutput result filterOutput ignoreOutput
      ({ span with attrs := span.attrs ++ [("output", serializeForSpan outputData)],
                   status := SpanStatus.ok, ended := true },
        Except.ok result)
    | Except.error exc =>
      ({ handleSpanException span exc with ended := true }, Except.error exc)

/-- Model of `_execute_with_span_async`: identical control flow to the synchronous
variant (the `await`s do not change the observable span/result behaviour in
the sequential model). -/
def executeWithSpanAsync (recording : Bool) (inputData : Option PyVal)
    (filterOutput : Option (PyVal → PyVal)) (ignoreOutput : Option (List String))
    (executor : Except PyException PyVal) :
    SpanState × Except PyException PyVal :=
  let span : SpanState := { freshSpan with recording := recording }
  if !recording then ({ span with ended := true }, executor)
  else
    let span :=
      match inputData with
      | some d => { span with attrs := span.attrs ++ [("input", serializeForSpan d)] }
      | none => span
    match executor with
    | Except.ok result =>
      let outputData := prepareAndFilterOutput result filterOutput ignoreOutput
      ({ span with attrs := span.attrs ++ [("output", serializeForSpan outputData)],
                   status := SpanStatus.ok, ended := true },
        Except.ok result)
    | Except.error exc =>
      ({ handleSpanException span exc with ended := true }, Except.error exc)

/-- One pending behaviour of the underlying (unwrapped) generator:
yield a value, raise `StopIteration` (resp. `StopAsyncIteration` for the
asynchronous wrapper), or raise some other exception. -/
inductive GenStep where
  | yieldVal (v : PyVal)
  | raiseStop
  | raiseErr (e : PyException)

/-- Outcome of one `next()` (resp. `__anext__`) call as seen by the
consumer: a value, a `StopIteration` (resp. `StopAsyncIteration`), or a
re-raised exception. -/
inductive NextOutcome where
  | value (v : PyVal)
  | stopIteration
  | errorRaised (e : PyException)

/-- Model of `next(self._generator)` on the underlying generator, modelled as
consuming the head of its remaining step sequence; an empty sequence keeps
raising `StopIteration`, as an exhausted Python generator does. -/
def generatorNext : List GenStep → List GenStep × NextOutcome
  | [] => ([], NextOutcome.stopIteration)
  | GenStep.yieldVal v :: rest => (rest, NextOutcome.value v)
  | GenStep.raiseStop :: rest => (rest, NextOutcome.stopIteration)
  | GenStep.raiseErr e :: rest => (rest, NextOutcome.errorRaised e)

/-- The state of a `TracedGenerator` (and, with the `"async_generator"`
type label, of a `TracedAsyncGenerator`): the underlying generator, the
open span, whether the context token is still attached, the decorator's
output options, `self._yielded_values` and `self._exhausted`. -/
structure TracedGenerator where
  generator : List GenStep
  span : SpanState
  contextAttached : Bool
  filterOutput : Option (PyVal → PyVal)
  ignoreOutput : Option (List String)
  yieldedValues : List PyVal
  exhausted : Bool

/-- The summary dict built by `TracedGenerator._finalize_span_success`
(`tp` is `"generator"` or `"async_generator"`): always `type` and
`yielded_count`; when anything was yielded, `sample_values` holds the first
`min 10 n` values reduced by `_serialize_for_span`, and `truncated = True`
is added exactly when more values existed than were sampled. -/
def generatorSummary (tp : String) (yieldedValues : List PyVal) : PyVal :=
  let base := [("type", PyVal.pyStr tp),
               ("yielded_count", PyVal.pyInt yieldedValues.length)]
  let entries :=
    if yieldedValues.isEmpty then base
    else
      let sampleSize := min 10 yieldedValues.length
      let withSamples := base ++
        [("sample_values",
          PyVal.pyList ((yieldedValues.take sampleSize).map serializeForSpan))]
      if sampleSize < yieldedValues.length then
        withSamples ++ [("truncated", PyVal.pyBool true)]
      else withSamples
  PyVal.pyDict entries

/-- Model of `TracedGenerator._finalize_span_success`: build the summary, pass it
through `_prepare_and_filter_output`, attach it as the `output` attribute
(reduced by `_serialize_for_span`) and set the status to OK. -/
def finalizeSpanSuccessGen (tp : String) (yieldedValues : List PyVal)
    (filterOutput : Option (PyVal → PyVal)) (ignoreOutput : Option (List String))
    (span : SpanState) : SpanState :=
  let outputData :=
    prepareAndFilterOutput (generatorSummary tp yieldedValues) filterOutput ignoreOutput
  { span with attrs := span.attrs ++ [("output", serializeForSpan outputData)],
              status := SpanStatus.ok }

/-- Model of `TracedGenerator.__next__`: an exhausted wrapper raises `StopIteration`
immediately (no generator call, no span work); otherwise the underlying
generator is advanced — a yielded value is recorded and returned, a
`StopIteration` finalizes the span as success, detaches the context, ends
the span, marks the wrapper exhausted and re-raises, and any other
exception records the error on the span, detaches the context, ends the
span, marks the wrapper exhausted and re-raises. -/
def tracedGenNext (g : TracedGenerator) : TracedGenerator × NextOutcome :=
  if g.exhausted then (g, NextOutcome.stopIteration)
  else
    let rest := (generatorNext g.generator).1
    match (generatorNext g.generator).2 with
    | NextOutcome.value v =>
      ({ g with generator := rest, yieldedValues := g.yieldedValues ++ [v] },
        NextOutcome.value v)
    | NextOutcome.stopIteration =>
      let finalized :=
        finalizeSpanSuccessGen "generator" g.yieldedValues g.filterOutput
          g.ignoreOutput g.span
      ({ g with generator := rest, exhausted := true, contextAttached := false,
                span := { finalized with ended := true } },
        NextOutcome.stopIteration)
    | NextOutcome.errorRaised e =>
      ({ g with generator := rest, exhausted := true, contextAttached := false,
                span := { handleSpanException g.span e with ended := true } },
        NextOutcome.errorRaised e)

/-- Model of `TracedAsyncGenerator.__anext__`: same control flow as the synchronous
wrapper, with `StopAsyncIteration` in place of `StopIteration` (both are
modelled by `NextOutcome.stopIteration`) and the `"async_generator"` type
label in the summary. -/
def tracedAsyncGenNext (g : TracedGenerator) : TracedGenerator × NextOutcome :=
  if g.exhausted then (g, NextOutcome.stopIteration)
  else
    let rest := (generatorNext g.generator).1
    match (generatorNext g.generator).2 with
    | NextOutcome.value v =>
      ({ g with generator := rest, yieldedValues := g.yieldedValues ++ [v] },
        NextOutcome.value v)
    | NextOutcome.stopIteration =>
      let finalized :=
        finalizeSpanSuccessGen "async_generator" g.yieldedValues g.filterOutput
          g.ignoreOutput g.span
      ({ g with generator := rest, exhausted := true, contextAttached := false,
                span := { finalized with ended := true } },
        NextOutcome.stopIteration)
    | NextOutcome.errorRaised e =>
      ({ g with generator := rest, exhausted := true, contextAttached := false,
                span := { handleSpanException g.span e with ended := true } },
        NextOutcome.errorRaised e)

/-- The `TracedGenerator` built by `_execute_generator_sync` for a
recording span with default decorator options wrapped around an underlying
generator. -/
def initTracedGen (steps : List GenStep) : TracedGenerator :=
  { generator := steps, span := freshSpan, contextAttached := true,
    filterOutput := none, ignoreOutput := none, yieldedValues := [],
    exhausted := false }

/-- Drive a traced generator through `fuel` calls to `__next__`. -/
def runTracedGen : Nat → TracedGenerator → TracedGenerator
  | 0, g => g
  | fuel + 1, g => runTracedGen fuel (tracedGenNext g).1

/-- A Python callable as seen by the `WithTracing` decorator: either an
unwrapped function (whose `_is_traced` attribute is normally absent,
i.e. `false`) or a wrapper closure produced by the decorator, which always
carries `_is_traced = True`. -/
inductive PyCallable where
  | plain (id : Nat) (tracedAttr : Bool)
  | traced (inner : PyCallable)
deriving DecidableEq, Repr

/-- Model of `hasattr(fn, "_is_traced")`. -/
def hasTracedAttr : PyCallable → Bool
  | PyCallable.plain _ b => b
  | PyCallable.traced _ => true

/-- The `decorator` inner function of `WithTracing`: a callable that
already has the `_is_traced` attribute is returned unchanged with a
warning logged (the returned `Bool`); otherwise a wrapper closure carrying
`_is_traced = True` is returned, with no warning. -/
def withTracingDecorator (fn : PyCallable) : PyCallable × Bool :=
  if hasTracedAttr fn then (fn, true)
  else (PyCallable.traced fn, false)

/-! ## Claim theorems -/

/-- C9: for every non-negative integer nanosecond timestamp `n`, the
serializer's time split returns `(s, r)` with `s = n div 10^9` and
`r = n mod 10^9`, so `0 ≤ r < 10^9` and `s * 10^9 + r = n` (no precision
loss in the split). -/
theorem timeToTuple_split (n : Nat) :
    (timeToTuple n).1 = n / 1000000000 ∧
    (timeToTuple n).2 = n % 1000000000 ∧
    (timeToTuple n).2 < 1000000000 ∧
    (timeToTuple n).1 * 1000000000 + (timeToTuple n).2 = n := by
  refine ⟨rfl, rfl, Nat.mod_lt _ (by norm_num), ?_⟩
  simpa [timeToTuple, Nat.mul_comm] using Nat.div_add_mod n 1000000000

/-- C8: applying `WithTracing` to a callable it has already wrapped returns
that callable unchanged (`wrap (wrap f) = wrap f`) and logs a warning
instead of wrapping again. -/
theorem withTracing_idempotent (fn : PyCallable) :
    withTracingDecorator (withTracingDecorator fn).1 =
      ((withTracingDecorator fn).1, true) := by
  cases h : hasTracedAttr fn
  · have h1 : withTracingDecorator fn = (PyCallable.traced fn, false) := by
      simp [withTracingDecorator, h]
    rw [h1]
    rfl
  · have h1 : withTracingDecorator fn = (fn, true) := by
      simp [withTracingDecorator, h]
    rw [h1]
    exact h1

/-- C6: for every wrapped plain or asynchronous call whose wrapped unit
raises an exception, the wrapper records the exception as a span event,
sets the span status to error with the exception's message, ends the span,
and re-raises the identical exception to the caller. -/
theorem wrapped_exception_propagation (inputData : Option PyVal)
    (fo : Option (PyVal → PyVal)) (io : Option (List String))
    (exc : PyException) :
    ((executeWithSpanSync true inputData fo io (Except.error exc)).2 =
        Except.error exc ∧
      (executeWithSpanSync true inputData fo io (Except.error exc)).1.exceptionEvents = [exc] ∧
      (executeWithSpanSync true inputData fo io (Except.error exc)).1.status =
        SpanStatus.error exc.message ∧
      (executeWithSpanSync true inputData fo io (Except.error exc)).1.ended = true) ∧
    ((executeWithSpanAsync true inputData fo io (Except.error exc)).2 =
        Except.error exc ∧
      (executeWithSpanAsync true inputData fo io (Except.error exc)).1.exceptionEvents = [exc] ∧
      (executeWithSpanAsync true inputData fo io (Except.error exc)).1.status =
        SpanStatus.error exc.message ∧
      (executeWithSpanAsync true inputData fo io (Except.error exc)).1.ended = true) := by
  cases inputData <;>
    simp [executeWithSpanSync, executeWithSpanAsync, handleSpanException, freshSpan]

/-- C10: once a `next` call on a traced (async) generator wrapper has
raised — a stop signal or any other exception — the wrapper is marked
exhausted; and on an exhausted wrapper every further `next` call raises the
stop signal immediately, leaving the whole wrapper state (underlying
generator, recorded values, span) untouched. -/
theorem tracedGen_exhaustion (g : TracedGenerator) :
    (g.exhausted = true →
      tracedGenNext g = (g, NextOutcome.stopIteration) ∧
      tracedAsyncGenNext g = (g, NextOutcome.stopIteration)) ∧
    (((tracedGenNext g).2 = NextOutcome.stopIteration ∨
        ∃ e, (tracedGenNext g).2 = NextOutcome.errorRaised e) →
      (tracedGenNext g).1.exhausted = true) ∧
    (((tracedAsyncGenNext g).2 = NextOutcome.stopIteration ∨
        ∃ e, (tracedAsyncGenNext g).2 = NextOutcome.errorRaised e) →
      (tracedAsyncGenNext g).1.exhausted = true) := by
  refine ⟨fun h => ⟨by simp [tracedGenNext, h], by simp [tracedAsyncGenNext, h]⟩, ?_, ?_⟩ <;>
  · intro hout
    by_cases hex : g.exhausted
    · simp [tracedGenNext, tracedAsyncGenNext, hex]
    · rcases hval : (generatorNext g.generator).2 with v | _ | e <;>
        simp [tracedGenNext, tracedAsyncGenNext, hex, hval] at hout ⊢

/-- C10 witness: on a concrete exhausted wrapper, `__next__` raises
`StopIteration` and changes nothing. -/
theorem tracedGen_exhaustion_witness :
    tracedGenNext { initTracedGen [] with exhausted := true } =
      ({ initTracedGen [] with exhausted := true }, NextOutcome.stopIteration) :=
  ((tracedGen_exhaustion { initTracedGen [] with exhausted := true }).1 rfl).1

/-- Shifting the accumulator of the `export()` dedup loop: running the loop
from `(a, k, d)` appends its admissions to `a` and adds its duplicate count
to `d`. -/
theorem exportFold_shift (spans : List SerializedSpan) (a : List SerializedSpan)
    (k : Finset SpanKey) (d : Nat) :
    spans.foldl exportStep (a, k, d) =
      (a ++ (spans.foldl exportStep ([], k, 0)).1,
       (spans.foldl exportStep ([], k, 0)).2.1,
       d + (spans.foldl exportStep ([], k, 0)).2.2) := by
  induction spans generalizing a k d with
  | nil => simp
  | cons s t ih =>
    simp only [List.foldl_cons]
    by_cases h : spanKey s ∈ k
    · have h1 : exportStep (a, k, d) s = (a, k, d + 1) := by simp [exportStep, h]
      have h2 : exportStep ([], k, 0) s = ([], k, 0 + 1) := by simp [exportStep, h]
      rw [h1, h2, ih a k (d + 1), ih ([]) k (0 + 1)]
      simp [Nat.add_assoc]
    · have h1 : exportStep (a, k, d) s = (a ++ [s], insert (spanKey s) k, d) := by
        simp [exportStep, h]
      have h2 : exportStep ([], k, 0) s = ([s], insert (spanKey s) k, 0) := by
        simp [exportStep, h]
      rw [h1, h2, ih (a ++ [s]) (insert (spanKey s) k) d,
        ih ([s]) (insert (spanKey s) k) 0]
      simp [List.append_assoc]

/-- C2: in any sequence of `export()` admissions, a record whose
`(traceId, spanId)` key is already tracked leaves the state exactly as if
that record had not been offered, counting one extra duplicate; a record
with a fresh key is appended to the end of the buffer and its key is added
to the key set, before the rest of the batch is processed. -/
theorem export_dedup (st : ExporterState) (r : SerializedSpan)
    (rest : List SerializedSpan) :
    (spanKey r ∈ st.bufferSpanKeys →
      exportSpans st (r :: rest) =
        ((exportSpans st rest).1, (exportSpans st rest).2 + 1)) ∧
    (spanKey r ∉ st.bufferSpanKeys →
      exportSpans st (r :: rest) =
        exportSpans
          { st with buffer := st.buffer ++ [r],
                    bufferSpanKeys := insert (spanKey r) st.bufferSpanKeys }
          rest) := by
  constructor
  · intro h
    simp only [exportSpans, List.foldl_cons]
    rw [show exportStep ([], st.bufferSpanKeys, 0) r = ([], st.bufferSpanKeys, 0 + 1)
        from by simp [exportStep, h]]
    rw [exportFold_shift rest ([]) st.bufferSpanKeys (0 + 1)]
    simp [Nat.add_comm]
  · intro h
    simp only [exportSpans, List.foldl_cons]
    rw [show exportStep ([], st.bufferSpanKeys, 0) r =
          ([r], insert (spanKey r) st.bufferSpanKeys, 0)
        from by simp [exportStep, h]]
    rw [exportFold_shift rest ([r]) (insert (spanKey r) st.bufferSpanKeys) 0]
    simp [List.append_assoc]

/-- C2 witness: a concrete fresh admission followed by a concrete duplicate
admission behave as the theorem states. -/
theorem export_dedup_witness :
    (spanKey ⟨"t1", "s1", "p"⟩ ∉
      (⟨[], ∅, "", false⟩ : ExporterState).bufferSpanKeys ∧
      exportSpans ⟨[], ∅, "", false⟩ [⟨"t1", "s1", "p"⟩] =
        exportSpans
          { (⟨[], ∅, "", false⟩ : ExporterState) with
              buffer := (⟨[], ∅, "", false⟩ : ExporterState).buffer ++ [⟨"t1", "s1", "p"⟩],
              bufferSpanKeys :=
                insert (spanKey ⟨"t1", "s1", "p"⟩)
                  (⟨[], ∅, "", false⟩ : ExporterState).bufferSpanKeys }
          []) ∧
    (spanKey ⟨"t1", "s1", "q"⟩ ∈
      (⟨[], {("t1", "s1")}, "", false⟩ : ExporterState).bufferSpanKeys ∧
      exportSpans ⟨[], {("t1", "s1")}, "", false⟩ [⟨"t1", "s1", "q"⟩] =
        ((exportSpans ⟨[], {("t1", "s1")}, "", false⟩ []).1,
          (exportSpans ⟨[], {("t1", "s1")}, "", false⟩ []).2 + 1)) := by
  refine ⟨⟨by decide, ?_⟩, ⟨by decide, ?_⟩⟩
  · exact (export_dedup ⟨[], ∅, "", false⟩ ⟨"t1", "s1", "p"⟩ []).2 (by decide)
  · exact (export_dedup ⟨[], {("t1", "s1")}, "", false⟩ ⟨"t1", "s1", "q"⟩ []).1 (by decide)

/-- C1 counterexample: a concrete non-empty batch with a server configured
and shutdown not requested, whose send raises an ordinary (non
`RuntimeError`) exception — `flush()` swallows the failure instead of
propagating it to the caller. -/
theorem flush_propagation_counterexample :
    (⟨[⟨"t1", "s1", "p"⟩], {("t1", "s1")}, "http://srv", false⟩ :
        ExporterState).buffer ≠ [] ∧
    (⟨[⟨"t1", "s1", "p"⟩], {("t1", "s1")}, "http://srv", false⟩ :
        ExporterState).serverUrl ≠ "" ∧
    (flush ⟨[⟨"t1", "s1", "p"⟩], {("t1", "s1")}, "http://srv", false⟩
        (some (FlushError.other "send failed"))).error = none := by
  refine ⟨by simp, by simp, by decide⟩

/-- C1 (amended): on every failing send of a non-empty extracted batch with
a server configured, `flush()` restores the extracted records to the buffer
head and fully rebuilds the key set; the failure is propagated to the
caller whenever it is a `RuntimeError`, and also whenever shutdown has been
requested, but an ordinary exception raised before shutdown was requested
is swallowed (logged only). -/
theorem flush_failure_restore_propagation (st : ExporterState) (e : FlushError)
    (hne : st.buffer ≠ []) (hurl : st.serverUrl ≠ "") :
    (flush st (some e)).state.buffer = st.buffer ∧
    (flush st (some e)).state.bufferSpanKeys = (st.buffer.map spanKey).toFinset ∧
    (∀ sr m, e = FlushError.runtime sr m → (flush st (some e)).error = some e) ∧
    (st.shutdownRequested = true → (flush st (some e)).error = some e) ∧
    ((∀ sr m, e ≠ FlushError.runtime sr m) → st.shutdownRequested = false →
      (flush st (some e)).error = none) := by
  have hie : st.buffer.isEmpty = false := by simp [hne]
  cases e with
  | runtime sr m =>
    refine ⟨?_, ?_, ?_, ?_, ?_⟩ <;>
      simp [flush, extractAndRemoveSpansFromBuffer, prependSpansToBuffer, hie, hurl]
  | other m =>
    refine ⟨?_, ?_, ?_, ?_, ?_⟩ <;>
      simp [flush, extractAndRemoveSpansFromBuffer, prependSpansToBuffer, hie, hurl]

/-- C1 (amended) witness: a concrete failing `RuntimeError` send on a
configured exporter restores the buffer and propagates the failure. -/
theorem flush_failure_restore_propagation_witness :
    (flush ⟨[⟨"t1", "s1", "p"⟩], {("t1", "s1")}, "http://srv", false⟩
        (some (FlushError.runtime true "interpreter shutdown"))).state.buffer =
      [⟨"t1", "s1", "p"⟩] ∧
    (flush ⟨[⟨"t1", "s1", "p"⟩], {("t1", "s1")}, "http://srv", false⟩
        (some (FlushError.runtime true "interpreter shutdown"))).error =
      some (FlushError.runtime true "interpreter shutdown") := by
  have h := flush_failure_restore_propagation
    ⟨[⟨"t1", "s1", "p"⟩], {("t1", "s1")}, "http://srv", false⟩
    (FlushError.runtime true "interpreter shutdown") (by simp) (by simp)
  exact ⟨h.1, h.2.2.1 true "interpreter shutdown" rfl⟩

/-- Membership after releasing the keys of a batch: a key survives the
fold of `erase` exactly when it was present and is not the key of any
released span. -/
theorem mem_foldl_erase (spans : List SerializedSpan) (ks : Finset SpanKey)
    (x : SpanKey) :
    (x ∈ spans.foldl (fun acc s => acc.erase (spanKey s)) ks) ↔
      (x ∈ ks ∧ ∀ s ∈ spans, x ≠ spanKey s) := by
  induction spans generalizing ks with
  | nil => simp
  | cons a t ih =>
    simp only [List.foldl_cons, ih, Finset.mem_erase, List.mem_cons]
    constructor
    · rintro ⟨⟨hne, hks⟩, hall⟩
      refine ⟨hks, ?_⟩
      rintro s (rfl | hs)
      · exact hne
      · exact hall s hs
    · rintro ⟨hks, hall⟩
      exact ⟨⟨hall a (Or.inl rfl), hks⟩, fun s hs => hall s (Or.inr hs)⟩

/-- C4: with no server address configured, `flush()` on a non-empty,
key-consistent buffer empties the buffer and releases the keys of every
extracted record (leaving the key set empty), performs zero send attempts,
delivers nothing, and returns without error; and discarding without retry
happens on no other `flush()` path — any extracted record that is neither
delivered nor back in the buffer implies the server was unconfigured. -/
theorem flush_unconfigured_drop (st : ExporterState) (r : Option FlushError)
    (hurl : st.serverUrl = "") (hne : st.buffer ≠ [])
    (hk : st.bufferSpanKeys = (st.buffer.map spanKey).toFinset) :
    (flush st r).state.buffer = [] ∧
    (flush st r).state.bufferSpanKeys = ∅ ∧
    (flush st r).sendAttempts = 0 ∧
    (flush st r).sent = [] ∧
    (flush st r).error = none ∧
    (∀ st2 r2 s, s ∈ (flush st2 r2).extracted → s ∉ (flush st2 r2).sent →
      s ∉ (flush st2 r2).state.buffer → st2.serverUrl = "") := by
  have hie : st.buffer.isEmpty = false := by simp [hne]
  refine ⟨?_, ?_, ?_, ?_, ?_, ?_⟩
  · simp [flush, extractAndRemoveSpansFromBuffer, removeSpanKeysFromTracking, hie, hurl]
  · simp only [flush, extractAndRemoveSpansFromBuffer, removeSpanKeysFromTracking,
      hie, hurl]
    simp only [Bool.false_eq_true, if_false, if_true, if_pos rfl]
    rw [Finset.eq_empty_iff_forall_not_mem]
    intro x hx
    rw [mem_foldl_erase] at hx
    rcases hx with ⟨hxk, hall⟩
    rw [hk, List.mem_toFinset, List.mem_map] at hxk
    rcases hxk with ⟨s, hs, rfl⟩
    exact hall s hs rfl
  · simp [flush, extractAndRemoveSpansFromBuffer, hie, hurl]
  · simp [flush, extractAndRemoveSpansFromBuffer, hie, hurl]
  · simp [flush, extractAndRemoveSpansFromBuffer, hie, hurl]
  · intro st2 r2 s hext hnsent hnbuf
    by_cases hie2 : st2.buffer.isEmpty
    · simp [flush, extractAndRemoveSpansFromBuffer, hie2] at hext
      rw [List.isEmpty_iff] at hie2
      rw [hie2] at hext
      simp at hext
    · by_cases hurl2 : st2.serverUrl = ""
      · exact hurl2
      · exfalso
        rcases r2 with _ | e
        · rw [show (flush st2 none).sent = st2.buffer from by
            simp [flush, extractAndRemoveSpansFromBuffer, hie2, hurl2]] at hnsent
          rw [show (flush st2 none).extracted = st2.buffer from by
            simp [flush, extractAndRemoveSpansFromBuffer, hie2, hurl2]] at hext
          exact hnsent hext
        · have hbuf : (flush st2 (some e)).state.buffer = st2.buffer := by
            cases e <;>
              simp [flush, extractAndRemoveSpansFromBuffer, prependSpansToBuffer,
                hie2, hurl2]
          have hext2 : (flush st2 (some e)).extracted = st2.buffer := by
            cases e <;>
              simp [flush, extractAndRemoveSpansFromBuffer, hie2, hurl2]
          rw [hbuf] at hnbuf
          rw [hext2] at hext
          exact hnbuf hext

/-- C4 witness: a concrete 3-record buffer with no server configured. -/
theorem flush_unconfigured_drop_witness :
    (flush ⟨[⟨"t", "a", "1"⟩, ⟨"t", "b", "2"⟩, ⟨"t", "c", "3"⟩],
        ([(⟨"t", "a", "1"⟩ : SerializedSpan), ⟨"t", "b", "2"⟩,
          ⟨"t", "c", "3"⟩].map spanKey).toFinset, "", false⟩ none).state.buffer = [] ∧
    (flush ⟨[⟨"t", "a", "1"⟩, ⟨"t", "b", "2"⟩, ⟨"t", "c", "3"⟩],
        ([(⟨"t", "a", "1"⟩ : SerializedSpan), ⟨"t", "b", "2"⟩,
          ⟨"t", "c", "3"⟩].map spanKey).toFinset, "", false⟩ none).state.bufferSpanKeys = ∅ ∧
    (flush ⟨[⟨"t", "a", "1"⟩, ⟨"t", "b", "2"⟩, ⟨"t", "c", "3"⟩],
        ([(⟨"t", "a", "1"⟩ : SerializedSpan), ⟨"t", "b", "2"⟩,
          ⟨"t", "c", "3"⟩].map spanKey).toFinset, "", false⟩ none).sendAttempts = 0 := by
  have h := flush_unconfigured_drop
    ⟨[⟨"t", "a", "1"⟩, ⟨"t", "b", "2"⟩, ⟨"t", "c", "3"⟩],
      ([(⟨"t", "a", "1"⟩ : SerializedSpan), ⟨"t", "b", "2"⟩,
        ⟨"t", "c", "3"⟩].map spanKey).toFinset, "", false⟩ none rfl (by simp) rfl
  exact ⟨h.1, h.2.1, h.2.2.1⟩

/-- C3: with `[A, B, C]` buffered (keys consistent) and a server
configured, a failed send restores `[A, B, C]` to the buffer head in their
original order with the key set rebuilt to exactly the buffer's keys; a
subsequent admission of a fresh-keyed `D` appends it; and the following
successful send delivers exactly `[A, B, C, D]` in that order, emptying the
buffer — and in general `Restore` prepends its records, in order, to the
live buffer. -/
theorem restore_order_preservation (A B C D : SerializedSpan) (url : String)
    (sd : Bool) (e : FlushError) (st1 st2 : ExporterState)
    (hurl : url ≠ "") (hD : spanKey D ∉ [A, B, C].map spanKey)
    (h1 : st1 = (flush ⟨[A, B, C], ([A, B, C].map spanKey).toFinset, url, sd⟩
        (some e)).state)
    (h2 : st2 = (exportSpans st1 [D]).1) :
    st1.buffer = [A, B, C] ∧
    st1.bufferSpanKeys = (st1.buffer.map spanKey).toFinset ∧
    st2.buffer = [A, B, C, D] ∧
    st2.bufferSpanKeys = (st2.buffer.map spanKey).toFinset ∧
    (flush st2 none).sent = [A, B, C, D] ∧
    (flush st2 none).state.buffer = [] ∧
    (∀ st spans, (prependSpansToBuffer st spans).buffer = spans ++ st.buffer) := by
  have hst1 : st1 = ⟨[A, B, C], ([A, B, C].map spanKey).toFinset, url, sd⟩ := by
    rw [h1]
    cases e <;>
      simp [flush, extractAndRemoveSpansFromBuffer, prependSpansToBuffer, hurl]
  have hst2 : st2 = ⟨[A, B, C, D],
      insert (spanKey D) (([A, B, C].map spanKey).toFinset), url, sd⟩ := by
    rw [h2, hst1]
    have hmem : ¬ (spanKey D = spanKey A ∨ spanKey D = spanKey B ∨
        spanKey D = spanKey C) := by
      intro h
      apply hD
      rcases h with h | h | h <;> (rw [h]; simp)
    simp [exportSpans, exportStep, hmem]
  refine ⟨by rw [hst1], by rw [hst1], by rw [hst2], ?_, ?_, ?_,
    fun st spans => rfl⟩
  · rw [hst2]
    ext x
    simp [or_comm, or_assoc, or_left_comm]
  · rw [hst2]
    simp [flush, extractAndRemoveSpansFromBuffer, hurl]
  · rw [hst2]
    simp [flush, extractAndRemoveSpansFromBuffer, removeSpanKeysFromTracking, hurl]

/-- C3 witness: the scenario run on four concrete distinct-keyed records
with a concrete failing then succeeding send. -/
theorem restore_order_preservation_witness :
    (flush (exportSpans (flush ⟨[⟨"t", "a", "1"⟩, ⟨"t", "b", "2"⟩, ⟨"t", "c", "3"⟩],
        ([(⟨"t", "a", "1"⟩ : SerializedSpan), ⟨"t", "b", "2"⟩,
          ⟨"t", "c", "3"⟩].map spanKey).toFinset, "http://srv", false⟩
        (some (FlushError.other "boom"))).state [⟨"t", "d", "4"⟩]).1 none).sent =
      [⟨"t", "a", "1"⟩, ⟨"t", "b", "2"⟩, ⟨"t", "c", "3"⟩, ⟨"t", "d", "4"⟩] :=
  (restore_order_preservation ⟨"t", "a", "1"⟩ ⟨"t", "b", "2"⟩ ⟨"t", "c", "3"⟩
    ⟨"t", "d", "4"⟩ "http://srv" false (FlushError.other "boom") _ _
    (by simp) (by decide) rfl rfl).2.2.2.2.1

/-- When the shutdown flag is never observed, the worker performs exactly
two actions (one flush call and one sleep) per unit of fuel, whatever the
send outcomes are — a failing cycle never terminates the loop. -/
theorem flushWorker_trace_length (sendOutcomes : Nat → Option FlushError)
    (shutdownAt : Nat → Bool) (fuel cycle : Nat) (st : ExporterState)
    (h : ∀ i, shutdownAt i = false) :
    (flushWorker sendOutcomes shutdownAt fuel cycle st).1.length = 2 * fuel := by
  induction fuel generalizing cycle st with
  | zero => simp [flushWorker]
  | succ n ih =>
    simp only [flushWorker, h, Bool.false_eq_true, if_false, List.length_cons]
    rw [ih]
    omega

/-- C7 counterexample: the first action of a worker cycle is the flush
call, not the sleep — with one cycle of fuel and no shutdown the observed
trace is `[flush, sleep]`, which differs from the claimed
`[sleep, flush]` order. -/
theorem flushWorker_counterexample :
    (flushWorker (fun _ => none) (fun _ => false) 1 0 ⟨[], ∅, "", false⟩).1 =
      [WorkerEvent.flushCall false, WorkerEvent.sleep] ∧
    [WorkerEvent.flushCall false, WorkerEvent.sleep] ≠
      [WorkerEvent.sleep, WorkerEvent.flushCall false] := by
  exact ⟨rfl, by decide⟩

/-- C7 (amended): the worker loop runs flush-then-sleep cycles: when the
shutdown flag is observed at the top of an iteration the loop exits at once
with no flush of its own; otherwise the cycle calls `flush()` and then
sleeps the interval, and continues with the next cycle whether or not the
flush raised; and with shutdown never observed, the loop performs its full
complement of cycles regardless of how many flushes raise. -/
theorem flushWorker_loop_shape (sendOutcomes : Nat → Option FlushError)
    (shutdownAt : Nat → Bool) (fuel cycle : Nat) (st : ExporterState) :
    (shutdownAt cycle = true →
      flushWorker sendOutcomes shutdownAt (fuel + 1) cycle st = ([], st)) ∧
    (shutdownAt cycle = false →
      (flushWorker sendOutcomes shutdownAt (fuel + 1) cycle st).1 =
        WorkerEvent.flushCall (flush st (sendOutcomes cycle)).error.isSome ::
          WorkerEvent.sleep ::
          (flushWorker sendOutcomes shutdownAt fuel (cycle + 1)
            (flush st (sendOutcomes cycle)).state).1) ∧
    ((∀ i, shutdownAt i = false) →
      (flushWorker sendOutcomes shutdownAt fuel cycle st).1.length = 2 * fuel) := by
  refine ⟨fun h => by simp [flushWorker, h], fun h => by simp [flushWorker, h],
    fun h => flushWorker_trace_length sendOutcomes shutdownAt fuel cycle st h⟩

/-- C7 (amended) witness: two cycles with every flush raising still
produce a four-action trace, and a shutdown observation stops the loop
with no flush. -/
theorem flushWorker_loop_shape_witness :
    (flushWorker (fun _ => some (FlushError.other "boom")) (fun _ => false) 2 0
        ⟨[], ∅, "", false⟩).1.length = 2 * 2 ∧
    flushWorker (fun _ => none) (fun _ => true) 1 0 ⟨[], ∅, "", false⟩ =
      ([], ⟨[], ∅, "", false⟩) := by
  exact ⟨(flushWorker_loop_shape (fun _ => some (FlushError.other "boom"))
      (fun _ => false) 2 0 ⟨[], ∅, "", false⟩).2.2 (fun _ => rfl),
    (flushWorker_loop_shape (fun _ => none) (fun _ => true) 0 0
      ⟨[], ∅, "", false⟩).1 rfl⟩

/-- Driving a traced generator whose underlying generator will yield `vals`
and then stop: after `|vals| + 1` calls to `__next__` the wrapper is
exhausted, all of `vals` has been recorded, and the span carries the
success summary of everything recorded, an OK status, and has been ended. -/
theorem runTracedGen_exhaust (vals : List PyVal) (g : TracedGenerator)
    (hgen : g.generator = vals.map GenStep.yieldVal) (hex : g.exhausted = false) :
    (runTracedGen (vals.length + 1) g).exhausted = true ∧
    (runTracedGen (vals.length + 1) g).yieldedValues = g.yieldedValues ++ vals ∧
    (runTracedGen (vals.length + 1) g).span.attrs =
      g.span.attrs ++ [("output", serializeForSpan
        (prepareAndFilterOutput
          (generatorSummary "generator" (g.yieldedValues ++ vals))
          g.filterOutput g.ignoreOutput))] ∧
    (runTracedGen (vals.length + 1) g).span.status = SpanStatus.ok ∧
    (runTracedGen (vals.length + 1) g).span.ended = true := by
  induction vals generalizing g with
  | nil =>
    simp only [List.length_nil, Nat.zero_add, runTracedGen, List.map_nil] at hgen ⊢
    simp [tracedGenNext, hgen, hex, generatorNext, finalizeSpanSuccessGen]
  | cons v vs ih =>
    have hstep : (tracedGenNext g).1 =
        { g with generator := vs.map GenStep.yieldVal,
                 yieldedValues := g.yieldedValues ++ [v] } := by
      simp [tracedGenNext, hgen, hex, generatorNext]
    have hlen : (v :: vs).length + 1 = vs.length + 1 + 1 := by simp
    rw [hlen]
    have hrun : runTracedGen (vs.length + 1 + 1) g =
        runTracedGen (vs.length + 1) (tracedGenNext g).1 := rfl
    rw [hrun, hstep]
    have hih := ih { g with generator := vs.map GenStep.yieldVal,
                            yieldedValues := g.yieldedValues ++ [v] } rfl hex
    simpa [List.append_assoc] using hih

/-- C5: for a wrapped generator exhausted normally after yielding `vals`
(run with the decorator's default options), the span's single `output`
attribute is the serialized summary of exactly those values; the summary
records `yielded_count = |vals|`; when `1 ≤ |vals| ≤ 10` its
`sample_values` holds all the values reduced to primitive/string form and
no `truncated` entry exists; and when `|vals| > 10` its `sample_values`
holds exactly the first 10 reduced values and `truncated = True`. -/
theorem generator_summary_spec (vals : List PyVal) :
    (runTracedGen (vals.length + 1)
        (initTracedGen (vals.map GenStep.yieldVal))).span.attrs =
      [("output", serializeForSpan (generatorSummary "generator" vals))] ∧
    dictFind "yielded_count" (generatorSummary "generator" vals) =
      some (PyVal.pyInt vals.length) ∧
    (1 ≤ vals.length → vals.length ≤ 10 →
      dictFind "sample_values" (generatorSummary "generator" vals) =
        some (PyVal.pyList (vals.map serializeForSpan)) ∧
      dictFind "truncated" (generatorSummary "generator" vals) = none) ∧
    (10 < vals.length →
      dictFind "sample_values" (generatorSummary "generator" vals) =
        some (PyVal.pyList ((vals.take 10).map serializeForSpan)) ∧
      dictFind "truncated" (generatorSummary "generator" vals) =
        some (PyVal.pyBool true)) := by
  refine ⟨?_, ?_, ?_, ?_⟩
  · have h := (runTracedGen_exhaust vals (initTracedGen (vals.map GenStep.yieldVal))
      rfl rfl).2.2.1
    simpa [initTracedGen, freshSpan, prepareAndFilterOutput] using h
  · rcases vals with _ | ⟨v, vs⟩
    · simp [generatorSummary, dictFind, findEntry]
    · simp [generatorSummary, dictFind, findEntry]
      split <;> simp [findEntry]
  · intro h1 h10
    have hne : vals.isEmpty = false := by
      cases vals
      · simp at h1
      · simp
    have hmin : min 10 vals.length = vals.length := Nat.min_eq_right h10
    have hnlt : ¬ (min 10 vals.length < vals.length) := by omega
    simp [generatorSummary, dictFind, findEntry, hne, hmin, hnlt,
      List.take_length]
  · intro h10
    have hne : vals.isEmpty = false := by
      cases vals
      · simp at h10
      · simp
    have hmin : min 10 vals.length = 10 := Nat.min_eq_left (by omega)
    have hlt : min 10 vals.length < vals.length := by omega
    simp [generatorSummary, dictFind, findEntry, hne, hmin, hlt, h10]

/-- C5 witness: the generator yielding `0, 2, 4, ..., 18` (10 items) keeps
all samples with no truncation flag; `0, 2, ..., 28` (15 items) keeps the
first 10 samples with `truncated = True`. -/
theorem generator_summary_spec_witness :
    (dictFind "sample_values"
        (generatorSummary "generator"
          [PyVal.pyInt 0, PyVal.pyInt 2, PyVal.pyInt 4, PyVal.pyInt 6,
            PyVal.pyInt 8, PyVal.pyInt 10, PyVal.pyInt 12, PyVal.pyInt 14,
            PyVal.pyInt 16, PyVal.pyInt 18]) =
      some (PyVal.pyList ([PyVal.pyInt 0, PyVal.pyInt 2, PyVal.pyInt 4,
        PyVal.pyInt 6, PyVal.pyInt 8, PyVal.pyInt 10, PyVal.pyInt 12,
        PyVal.pyInt 14, PyVal.pyInt 16, PyVal.pyInt 18].map serializeForSpan)) ∧
      dictFind "truncated"
        (generatorSummary "generator"
          [PyVal.pyInt 0, PyVal.pyInt 2, PyVal.pyInt 4, PyVal.pyInt 6,
            PyVal.pyInt 8, PyVal.pyInt 10, PyVal.pyInt 12, PyVal.pyInt 14,
            PyVal.pyInt 16, PyVal.pyInt 18]) = none) ∧
    (dictFind "sample_values"
        (generatorSummary "generator"
          [PyVal.pyInt 0, PyVal.pyInt 2, PyVal.pyInt 4, PyVal.pyInt 6,
            PyVal.pyInt 8, PyVal.pyInt 10, PyVal.pyInt 12, PyVal.pyInt 14,
            PyVal.pyInt 16, PyVal.pyInt 18, PyVal.pyInt 20, PyVal.pyInt 22,
            PyVal.pyInt 24, PyVal.pyInt 26, PyVal.pyInt 28]) =
      some (PyVal.pyList (([PyVal.pyInt 0, PyVal.pyInt 2, PyVal.pyInt 4,
        PyVal.pyInt 6, PyVal.pyInt 8, PyVal.pyInt 10, PyVal.pyInt 12,
        PyVal.pyInt 14, PyVal.pyInt 16, PyVal.pyInt 18, PyVal.pyInt 20,
        PyVal.pyInt 22, PyVal.pyInt 24, PyVal.pyInt 26,
        PyVal.pyInt 28].take 10).map serializeForSpan)) ∧
      dictFind "truncated"
        (generatorSummary "generator"
          [PyVal.pyInt 0, PyVal.pyInt 2, PyVal.pyInt 4, PyVal.pyInt 6,
            PyVal.pyInt 8, PyVal.pyInt 10, PyVal.pyInt 12, PyVal.pyInt 14,
            PyVal.pyInt 16, PyVal.pyInt 18, PyVal.pyInt 20, PyVal.pyInt 22,
            PyVal.pyInt 24, PyVal.pyInt 26, PyVal.pyInt 28]) =
        some (PyVal.pyBool true)) :=
  ⟨(generator_summary_spec
      [PyVal.pyInt 0, PyVal.pyInt 2, PyVal.pyInt 4, PyVal.pyInt 6,
        PyVal.pyInt 8, PyVal.pyInt 10, PyVal.pyInt 12, PyVal.pyInt 14,
        PyVal.pyInt 16, PyVal.pyInt 18]).2.2.1 (by decide) (by decide),
    (generator_summary_spec
      [PyVal.pyInt 0, PyVal.pyInt 2, PyVal.pyInt 4, PyVal.pyInt 6,
        PyVal.pyInt 8, PyVal.pyInt 10, PyVal.pyInt 12, PyVal.pyInt 14,
        PyVal.pyInt 16, PyVal.pyInt 18, PyVal.pyInt 20, PyVal.pyInt 22,
        PyVal.pyInt 24, PyVal.pyInt 26, PyVal.pyInt 28]).2.2.2 (by decide)⟩
